import Mathlib

/-!
Shallow embedding of the Sphero RVR controller pipeline
(`controller_input.py`, `rvr_driver.py`, `rvr_controller.py`).

Machine reals of the Python source (trigger/stick scaling, speed scaling,
heading rates, turn-speed factor 0.3) are modelled with exact rationals;
Python `int(...)` conversion (truncation toward zero) is `pyInt`.  All claims
below are evaluated at configuration values and input ranges for which the
rational semantics agrees with IEEE double arithmetic of the source.
-/

/-- Python `int(q)` on a float/rational: truncation toward zero. -/
def pyInt (q : ℚ) : Int :=
  if 0 ≤ q then ⌊q⌋ else -⌊-q⌋

namespace RVRDriver

/-- Drive-section configuration of `RVRDriver.__init__` (`config['drive']`). -/
structure DriveConfig where
  max_speed : Int
  min_speed : Int
  speed_scale : ℚ
  steering_sensitivity : ℚ
  heading_speed : ℚ

/-- Scaling / floor / clamp tail of `RVRDriver.calculate_speed`
(rvr_driver.py lines 167-178), applied to the signed raw speed. -/
def speedPost (cfg : DriveConfig) (raw_speed : Int) : Int :=
  -- Apply speed scaling
  let scaled0 : Int := pyInt ((raw_speed : ℚ) * cfg.speed_scale)
  -- Apply minimum speed threshold to overcome static friction
  let scaled1 : Int :=
    if 0 < |scaled0| ∧ |scaled0| < cfg.min_speed then
      (if 0 < scaled0 then cfg.min_speed else -cfg.min_speed)
    else scaled0
  -- Clamp to max speed
  if cfg.max_speed < |scaled1| then
    (if 0 < scaled1 then cfg.max_speed else -cfg.max_speed)
  else scaled1

/-- Argument tuple of an `rvr.raw_motors(left_mode, left_speed, right_mode,
right_speed)` call: mode 1 drives the wheel forward, mode 2 backward, and the
speeds are the non-negative magnitudes. -/
structure RawMotorsCmd where
  left_mode : Nat
  left_speed : Nat
  right_mode : Nat
  right_speed : Nat
deriving DecidableEq, Repr

/-- `turn_speed` computation of `RVRDriver.drive` (rvr_driver.py lines
233-234): `int(abs(steering) * 0.3)` clamped by `max(40, min(_, 100))`.
The float literal `0.3` is modelled as the exact rational `3/10`; for the
steering magnitudes at hand the truncated products coincide with the
IEEE-double evaluation of the source. -/
def turn_speed (steering : Int) : Int :=
  max 40 (min (pyInt ((steering.natAbs : ℚ) * (3/10))) 100)

/-- `RVRDriver.drive` (rvr_driver.py lines 208-266) with a connected link:
steering-only differential turn.  Returns the `raw_motors` call issued
(`none` when not connected, where the method returns without commanding). -/
def drive (connected : Bool) (steering : Int) : Option RawMotorsCmd :=
  if connected = false then none
  else if 0 < steering.natAbs then
    -- Turn in place using raw motors
    let ts : Int := turn_speed steering
    let left_speed : Int := if 0 < steering then ts else -ts
    let right_speed : Int := if 0 < steering then -ts else ts
    some ⟨if 0 ≤ left_speed then 1 else 2, left_speed.natAbs,
          if 0 ≤ right_speed then 1 else 2, right_speed.natAbs⟩
  else
    -- Steering released - stop motors
    some ⟨1, 0, 1, 0⟩

/-- `RVRDriver.calculate_speed` (rvr_driver.py lines 144-178): signed speed
from the two trigger values, with trigger cancellation, speed scaling,
minimum-speed floor and maximum-speed clamp. -/
def calculate_speed (cfg : DriveConfig) (throttle reverse : Int) : Int :=
  -- Both triggers cancel out
  if 0 < throttle ∧ 0 < reverse then 0
  -- Calculate raw speed, then scale / floor / clamp
  else if 0 < throttle then speedPost cfg throttle
  else if 0 < reverse then speedPost cfg (-reverse)
  else 0

/-- `RVRDriver.calculate_heading_delta` (rvr_driver.py lines 180-206):
signed heading change in degrees from the steering input over `delta_time`
seconds, at rotation rate `(steering * sensitivity / 255) * heading_speed`
degrees per second. -/
def calculate_heading_delta (cfg : DriveConfig) (steering : Int)
    (delta_time : ℚ) : Int :=
  if steering = 0 then 0
  else
    -- Apply steering sensitivity
    let adjusted_steering : ℚ := (steering : ℚ) * cfg.steering_sensitivity
    -- Max rotation rate is heading_speed degrees per second
    let rotation_rate : ℚ := adjusted_steering / 255 * cfg.heading_speed
    -- Heading change over the time delta
    pyInt (rotation_rate * delta_time)

end RVRDriver

namespace RVRController

/-- Safety-layer actuation command (`rvr.emergency_stop()`). -/
inductive SafetyCmd where
  | emergencyStop
deriving DecidableEq, Repr

/-- Input-timeout check of one `RVRController.safety_monitor` tick
(rvr_controller.py lines 163-170): from the configured `input_timeout`,
the current time and `last_input_time`, the commands issued this tick and
the updated `last_input_time`.  Times are in seconds. -/
def watchdogTick (input_timeout now last_input_time : ℚ) :
    List SafetyCmd × ℚ :=
  if 0 < input_timeout then
    if input_timeout < now - last_input_time then
      ([SafetyCmd.emergencyStop], now)
    else ([], last_input_time)
  else ([], last_input_time)

/-- Event of the reconnection loop: a `rvr.connect()` attempt with its
outcome, or an `asyncio.sleep(reconnect_delay)` pause. -/
inductive ReconnectEvent where
  | attempt (success : Bool)
  | delay
deriving DecidableEq, Repr

/-- `RVRController.reconnect_rvr` (rvr_controller.py lines 180-191), with the
session running and the link down: the loop attempts `connect()`; a success
returns immediately, a failure sleeps `reconnect_delay` and retries.  The
argument lists the outcome of each successive `connect()` call; the result is
the trace of attempts and delays the loop performs. -/
def reconnect_rvr : List Bool → List ReconnectEvent
  | [] => []
  | outcome :: rest =>
    if outcome then [ReconnectEvent.attempt true]
    else ReconnectEvent.attempt false :: ReconnectEvent.delay ::
      reconnect_rvr rest

/-- Whether a reconnection-trace event is a connect attempt. -/
def ReconnectEvent.isAttempt : ReconnectEvent → Bool
  | .attempt _ => true
  | .delay => false

end RVRController

namespace ControllerInput

/-- `ControllerInput.normalize_trigger` (controller_input.py lines 103-121):
rescale a raw trigger value into 0-255, zeroing results below the configured
`trigger_threshold`. -/
def normalize_trigger (trigger_threshold raw_value max_raw : Int) : Int :=
  -- Normalize to 0-255
  let normalized : Int := pyInt ((raw_value : ℚ) / (max_raw : ℚ) * 255)
  -- Apply threshold
  if normalized < trigger_threshold then 0 else normalized

/-- `ControllerInput.normalize_stick` (controller_input.py lines 123-146):
rescale a raw stick value into -255..255 with a fractional deadzone. -/
def normalize_stick (deadzone : ℚ) (raw_value min_raw max_raw : Int) : Int :=
  -- Normalize to -1.0 to 1.0 using the bound matching the sign
  let normalized : ℚ :=
    if 0 ≤ raw_value then (raw_value : ℚ) / (max_raw : ℚ)
    else (raw_value : ℚ) / |(min_raw : ℚ)|
  -- Apply deadzone
  if |normalized| < deadzone then 0
  -- Scale to -255 to 255
  else pyInt (normalized * 255)

/-- The `self.state` dictionary of `ControllerInput`. -/
structure State where
  right_trigger : Int
  left_trigger : Int
  left_stick_x : Int
  button_a : Bool
  button_b : Bool
  button_x : Bool
  button_y : Bool
deriving DecidableEq, Repr

/-- `self.state` as initialised in `ControllerInput.__init__`. -/
def initState : State := ⟨0, 0, 0, false, false, false, false⟩

/-- evdev event types distinguished by `process_event`. -/
inductive EventType where
  | ev_abs
  | ev_key
  | ev_other
deriving DecidableEq, Repr

/-- Logical identity of an event code after the `self.event_codes` lookup;
`other` covers codes (including `left_stick_y`) with no dispatch branch. -/
inductive EventCode where
  | right_trigger
  | left_trigger
  | left_stick_x
  | button_a
  | button_b
  | button_x
  | button_y
  | other
deriving DecidableEq, Repr

/-- Button identity passed to the `on_button_press` callback. -/
inductive Button where
  | a
  | b
  | x
  | y
deriving DecidableEq, Repr

/-- One button block of `process_event` (controller_input.py lines 178-208):
from the stored pressed flag and the event value, the new flag and whether a
press notification fires. -/
def buttonStep (pressed : Bool) (value : Int) : Bool × Bool :=
  if value = 1 ∧ pressed = false then (true, true)
  else if value = 0 then (false, false)
  else (pressed, false)

/-- `ControllerInput.process_event` (controller_input.py lines 148-216):
returns the new state, the `(throttle, reverse, steering)` snapshot passed to
`on_drive_update` when a drive-relevant field changed, and the button passed
to `on_button_press` when a press edge fired. -/
def process_event (trigger_threshold : Int) (deadzone : ℚ) (st : State)
    (etype : EventType) (code : EventCode) (value : Int) :
    State × Option (Int × Int × Int) × Option Button :=
  if etype ≠ EventType.ev_abs ∧ etype ≠ EventType.ev_key then (st, none, none)
  else
    match code with
    | .right_trigger =>
      let st1 := { st with
        right_trigger := normalize_trigger trigger_threshold value 255 }
      (st1,
       if st.right_trigger = st1.right_trigger then none
       else some (st1.right_trigger, st1.left_trigger, st1.left_stick_x),
       none)
    | .left_trigger =>
      let st1 := { st with
        left_trigger := normalize_trigger trigger_threshold value 255 }
      (st1,
       if st.left_trigger = st1.left_trigger then none
       else some (st1.right_trigger, st1.left_trigger, st1.left_stick_x),
       none)
    | .left_stick_x =>
      let st1 := { st with
        left_stick_x := normalize_stick deadzone value (-32768) 32767 }
      (st1,
       if st.left_stick_x = st1.left_stick_x then none
       else some (st1.right_trigger, st1.left_trigger, st1.left_stick_x),
       none)
    | .button_a =>
      let r := buttonStep st.button_a value
      ({ st with button_a := r.1 }, none,
       if r.2 then some Button.a else none)
    | .button_b =>
      let r := buttonStep st.button_b value
      ({ st with button_b := r.1 }, none,
       if r.2 then some Button.b else none)
    | .button_x =>
      let r := buttonStep st.button_x value
      ({ st with button_x := r.1 }, none,
       if r.2 then some Button.x else none)
    | .button_y =>
      let r := buttonStep st.button_y value
      ({ st with button_y := r.1 }, none,
       if r.2 then some Button.y else none)
    | .other => (st, none, none)

/-- Fold `process_event` over an event list, counting the button-press
notifications fired. -/
def run_events (trigger_threshold : Int) (deadzone : ℚ) (st : State) :
    List (EventType × EventCode × Int) → State × Nat
  | [] => (st, 0)
  | e :: rest =>
    let r := process_event trigger_threshold deadzone st e.1 e.2.1 e.2.2
    let tail := run_events trigger_threshold deadzone r.1 rest
    (tail.1, (if r.2.2.isSome then 1 else 0) + tail.2)

end ControllerInput

namespace RVRDriver

/-- `RVRDriver.set_servo` (rvr_driver.py lines 281-323): clamp the position,
build the 4-channel PWM duty array and issue `set_all_pwms`, then record the
position in `servo_positions`.  `pwms_available` is false when the SDK lacks
`set_all_pwms` (the `AttributeError` fallback path, which logs and returns
before recording).  Returns the issued duty array, if any, and the updated
`servo_positions` map. -/
def set_servo (connected servo_enabled pwms_available : Bool)
    (servo_positions : Int → Int) (channel position : Int) :
    Option (List Int) × (Int → Int) :=
  if connected = false ∨ servo_enabled = false then (none, servo_positions)
  else
    -- Clamp position to valid range
    let position := max 0 (min 255 position)
    if 0 ≤ channel ∧ channel < 4 then
      -- Create PWM duty array (4 channels, set only the specified one)
      let pwm_duties : List Int :=
        [if channel = 0 then position else 0,
         if channel = 1 then position else 0,
         if channel = 2 then position else 0,
         if channel = 3 then position else 0]
      if pwms_available then
        (some pwm_duties, Function.update servo_positions channel position)
      else (none, servo_positions)
    else (none, servo_positions)

end RVRDriver

/-- C3: with both triggers strictly positive, `calculate_speed` returns 0
(simultaneous triggers cancel), for any configuration. -/
theorem calculate_speed_cancellation (cfg : RVRDriver.DriveConfig)
    (throttle reverse : Int) (ht : 0 < throttle) (hr : 0 < reverse) :
    RVRDriver.calculate_speed cfg throttle reverse = 0 := by
  simp [RVRDriver.calculate_speed, ht, hr]

/-- Witness for C3: concrete cancellation at throttle 100, reverse 37. -/
theorem calculate_speed_cancellation_witness :
    RVRDriver.calculate_speed ⟨200, 30, 1, 1, 90⟩ 100 37 = 0 :=
  calculate_speed_cancellation ⟨200, 30, 1, 1, 90⟩ 100 37 (by decide) (by decide)

/-- The scale / floor / clamp tail of `calculate_speed` yields, when non-zero,
a magnitude in `[min_speed, max_speed]`. -/
theorem speedPost_magnitude (cfg : RVRDriver.DriveConfig) (raw : Int)
    (hmn : 0 < cfg.min_speed) (hmm : cfg.min_speed ≤ cfg.max_speed)
    (hne : RVRDriver.speedPost cfg raw ≠ 0) :
    cfg.min_speed ≤ |RVRDriver.speedPost cfg raw| ∧
      |RVRDriver.speedPost cfg raw| ≤ cfg.max_speed := by
  have hmx : 0 < cfg.max_speed := lt_of_lt_of_le hmn hmm
  have habs_mn : |cfg.min_speed| = cfg.min_speed := abs_of_pos hmn
  have habs_mx : |cfg.max_speed| = cfg.max_speed := abs_of_pos hmx
  unfold RVRDriver.speedPost at hne ⊢
  set s0 : Int := pyInt ((raw : ℚ) * cfg.speed_scale) with hs0
  by_cases hA : 0 < |s0| ∧ |s0| < cfg.min_speed
  · simp only [if_pos hA] at hne ⊢
    by_cases hp : 0 < s0
    · simp only [if_pos hp] at hne ⊢
      rw [if_neg (by rw [habs_mn]; omega : ¬ cfg.max_speed < |cfg.min_speed|)]
      rw [habs_mn]
      exact ⟨le_refl _, hmm⟩
    · simp only [if_neg hp] at hne ⊢
      have habs_neg : |(-cfg.min_speed)| = cfg.min_speed := by
        rw [abs_neg, habs_mn]
      rw [if_neg (by rw [habs_neg]; omega : ¬ cfg.max_speed < |(-cfg.min_speed)|)]
      rw [habs_neg]
      exact ⟨le_refl _, hmm⟩
  · simp only [if_neg hA] at hne ⊢
    by_cases hC : cfg.max_speed < |s0|
    · simp only [if_pos hC] at hne ⊢
      by_cases hp : 0 < s0
      · simp only [if_pos hp] at hne ⊢
        rw [habs_mx]
        exact ⟨hmm, le_refl _⟩
      · simp only [if_neg hp] at hne ⊢
        rw [abs_neg, habs_mx]
        exact ⟨hmm, le_refl _⟩
    · simp only [if_neg hC] at hne ⊢
      have h0 : 0 < |s0| := abs_pos.mpr hne
      have h1 : ¬ |s0| < cfg.min_speed := fun hlt => hA ⟨h0, hlt⟩
      exact ⟨le_of_not_lt h1, le_of_not_lt hC⟩

/-- C4: for throttle and reverse in `0..255`, whenever `calculate_speed` is
non-zero its magnitude lies in `[min_speed, max_speed]`, under the configured
precondition `0 < min_speed ≤ max_speed` and `speed_scale > 0`. -/
theorem calculate_speed_magnitude_bounds (cfg : RVRDriver.DriveConfig)
    (throttle reverse : Int)
    (hmn : 0 < cfg.min_speed) (hmm : cfg.min_speed ≤ cfg.max_speed)
    (hscale : 0 < cfg.speed_scale)
    (ht0 : 0 ≤ throttle) (ht1 : throttle ≤ 255)
    (hr0 : 0 ≤ reverse) (hr1 : reverse ≤ 255)
    (hne : RVRDriver.calculate_speed cfg throttle reverse ≠ 0) :
    cfg.min_speed ≤ |RVRDriver.calculate_speed cfg throttle reverse| ∧
      |RVRDriver.calculate_speed cfg throttle reverse| ≤ cfg.max_speed := by
  unfold RVRDriver.calculate_speed at hne ⊢
  split_ifs at hne ⊢
  · exact absurd rfl hne
  · exact speedPost_magnitude cfg throttle hmn hmm hne
  · exact speedPost_magnitude cfg (-reverse) hmn hmm hne
  · exact absurd rfl hne

/-- Witness for C4: config (max 200, min 30, scale 1/2), throttle 100,
reverse 0 gives speed 50 with 30 ≤ 50 ≤ 200. -/
theorem calculate_speed_magnitude_bounds_witness :
    (30 : Int) ≤ |RVRDriver.calculate_speed ⟨200, 30, 1/2, 1, 90⟩ 100 0| ∧
      |RVRDriver.calculate_speed ⟨200, 30, 1/2, 1, 90⟩ 100 0| ≤ 200 :=
  calculate_speed_magnitude_bounds ⟨200, 30, 1/2, 1, 90⟩ 100 0
    (by decide) (by decide) (by norm_num) (by decide) (by decide)
    (by decide) (by decide)
    (by norm_num [RVRDriver.calculate_speed, RVRDriver.speedPost, pyInt])

/-- Truncating `n * 0.3` for a natural `n` is natural division `3 * n / 10`. -/
theorem pyInt_natCast_mul_three_tenths (n : ℕ) :
    pyInt ((n : ℚ) * (3/10)) = ((3 * n / 10 : ℕ) : Int) := by
  have hnn : (0:ℚ) ≤ (n : ℚ) * (3/10) := by positivity
  rw [pyInt, if_pos hnn]
  have h : (n : ℚ) * (3/10) = ((3 * n : ℕ) : ℚ) / ((10 : ℕ) : ℚ) := by
    push_cast; ring
  rw [h, Rat.floor_natCast_div_natCast]
  omega

/-- The `turn_speed` of `drive` equals the natural-number clamp
`max 40 (min (3|steering|/10) 100)`. -/
theorem turn_speed_eq (steering : Int) :
    RVRDriver.turn_speed steering =
      ((max 40 (min (3 * steering.natAbs / 10) 100) : ℕ) : Int) := by
  unfold RVRDriver.turn_speed
  rw [pyInt_natCast_mul_three_tenths]
  push_cast
  rfl

/-- C1: with a connected link, `drive` issues a differential `raw_motors`
command of magnitude `clamp(⌊|steering| * 0.3⌋, 40, 100)` on both wheels —
left forward (mode 1) / right backward (mode 2) for positive steering, the
mirror for negative — and an explicit zero-speed command to both wheels for
zero steering, never a no-op. -/
theorem drive_differential_policy (steering : Int) :
    (0 < steering →
       RVRDriver.drive true steering =
         some ⟨1, max 40 (min (3 * steering.natAbs / 10) 100), 2,
               max 40 (min (3 * steering.natAbs / 10) 100)⟩) ∧
    (steering < 0 →
       RVRDriver.drive true steering =
         some ⟨2, max 40 (min (3 * steering.natAbs / 10) 100), 1,
               max 40 (min (3 * steering.natAbs / 10) 100)⟩) ∧
    (steering = 0 → RVRDriver.drive true steering = some ⟨1, 0, 1, 0⟩) := by
  have hts := turn_speed_eq steering
  set M : ℕ := max 40 (min (3 * steering.natAbs / 10) 100) with hM
  have hM40 : 40 ≤ M := le_max_left _ _
  have hMpos : (0:Int) < (M:Int) := by exact_mod_cast by omega
  refine ⟨?_, ?_, ?_⟩
  · intro hpos
    have hne : 0 < steering.natAbs := Int.natAbs_pos.mpr (ne_of_gt hpos)
    unfold RVRDriver.drive
    rw [if_neg (by simp : ¬(true = false)), if_pos hne]
    simp only [hts, if_pos hpos]
    rw [if_pos (le_of_lt hMpos), if_neg (by omega : ¬ (0:Int) ≤ -(M:Int))]
    refine congrArg some ?_
    simp only [RVRDriver.RawMotorsCmd.mk.injEq, Int.natAbs_neg]
    refine ⟨trivial, ?_, trivial, ?_⟩ <;> omega
  · intro hneg
    have hne : 0 < steering.natAbs := Int.natAbs_pos.mpr (ne_of_lt hneg)
    unfold RVRDriver.drive
    rw [if_neg (by simp : ¬(true = false)), if_pos hne]
    simp only [hts, if_neg (not_lt.mpr (le_of_lt hneg))]
    rw [if_neg (by omega : ¬ (0:Int) ≤ -(M:Int)), if_pos (le_of_lt hMpos)]
    refine congrArg some ?_
    simp only [RVRDriver.RawMotorsCmd.mk.injEq, Int.natAbs_neg]
    refine ⟨trivial, ?_, trivial, ?_⟩ <;> omega
  · intro h0
    subst h0
    rfl

/-- Witness for C1: steering 100 turns right at speed 40 (floor 30 clamped up),
steering -200 turns left at speed 60, steering 0 issues the explicit stop. -/
theorem drive_differential_policy_witness :
    RVRDriver.drive true 100 = some ⟨1, 40, 2, 40⟩ ∧
    RVRDriver.drive true (-200) = some ⟨2, 60, 1, 60⟩ ∧
    RVRDriver.drive true 0 = some ⟨1, 0, 1, 0⟩ := by
  refine ⟨?_, ?_, ?_⟩
  · exact ((drive_differential_policy 100).1 (by decide)).trans (by decide)
  · exact ((drive_differential_policy (-200)).2.1 (by decide)).trans (by decide)
  · exact (drive_differential_policy 0).2.2 rfl

/-- Truncation toward zero is an odd function. -/
theorem pyInt_neg (q : ℚ) : pyInt (-q) = -(pyInt q) := by
  unfold pyInt
  rcases lt_trichotomy q 0 with h | h | h
  · rw [if_pos (by linarith), if_neg (not_le.mpr h), neg_neg]
  · subst h
    norm_num
  · rw [if_neg (by simpa using h), if_pos h.le, neg_neg]

/-- Truncating a non-negative natural quotient is natural division. -/
theorem pyInt_natCast_div (m d : ℕ) :
    pyInt ((m : ℚ) / (d : ℚ)) = ((m / d : ℕ) : Int) := by
  have hnn : (0:ℚ) ≤ (m : ℚ) / (d : ℚ) := by positivity
  rw [pyInt, if_pos hnn, Rat.floor_natCast_div_natCast]
  omega

/-- With sensitivity 1 and heading speed 90, the heading delta over one second
for non-negative steering is `90 * steering / 255` rounded down. -/
theorem calculate_heading_delta_default_eq (s : Int) (h0 : 0 ≤ s) :
    RVRDriver.calculate_heading_delta ⟨200, 30, 1, 1, 90⟩ s 1 =
      ((90 * s.toNat / 255 : ℕ) : Int) := by
  rcases eq_or_lt_of_le h0 with h | h
  · rw [← h]
    simp [RVRDriver.calculate_heading_delta]
  · have hne : ¬ s = 0 := by omega
    simp only [RVRDriver.calculate_heading_delta, if_neg hne]
    have harg : (s : ℚ) * (1 : ℚ) / 255 * 90 * 1
        = ((90 * s.toNat : ℕ) : ℚ) / ((255 : ℕ) : ℚ) := by
      have hs : ((s.toNat : ℕ) : ℚ) = (s : ℚ) := by
        exact_mod_cast Int.toNat_of_nonneg h0
      push_cast
      rw [hs]
      ring
    rw [harg, pyInt_natCast_div]

/-- Counterexample for C5: with sensitivity 1, heading speed 90 and a one
second interval, steering -255 yields heading delta -90, which does not lie
in the 270..360 degree band the claim requires for negative steering. -/
theorem calculate_heading_delta_negative_not_in_band :
    RVRDriver.calculate_heading_delta ⟨200, 30, 1, 1, 90⟩ (-255) 1 = -90 ∧
      ¬(270 ≤ RVRDriver.calculate_heading_delta ⟨200, 30, 1, 1, 90⟩ (-255) 1 ∧
        RVRDriver.calculate_heading_delta ⟨200, 30, 1, 1, 90⟩ (-255) 1 ≤ 360) := by
  have h : RVRDriver.calculate_heading_delta ⟨200, 30, 1, 1, 90⟩ (-255) 1 = -90 := by
    norm_num [RVRDriver.calculate_heading_delta, pyInt]
  rw [h]
  norm_num

/-- C5 (amended): the heading computation returns a signed heading delta:
steering 0 yields 0 and it is odd in steering for every configuration; with
sensitivity 1, heading speed 90 and a one-second interval, non-negative
steering maps monotonically into 0..90 reaching exactly 90 at +255, and
negative steering is the mirror, reaching -90 at -255, which from heading 0
modulo 360 is the 270..360 band. -/
theorem calculate_heading_delta_policy :
    (∀ (cfg : RVRDriver.DriveConfig) (dt : ℚ),
        RVRDriver.calculate_heading_delta cfg 0 dt = 0) ∧
    (∀ (cfg : RVRDriver.DriveConfig) (s : Int) (dt : ℚ),
        RVRDriver.calculate_heading_delta cfg (-s) dt =
          -(RVRDriver.calculate_heading_delta cfg s dt)) ∧
    (∀ s1 s2 : Int, 0 ≤ s1 → s1 ≤ s2 →
        RVRDriver.calculate_heading_delta ⟨200, 30, 1, 1, 90⟩ s1 1 ≤
          RVRDriver.calculate_heading_delta ⟨200, 30, 1, 1, 90⟩ s2 1) ∧
    (∀ s : Int, 0 ≤ s → s ≤ 255 →
        0 ≤ RVRDriver.calculate_heading_delta ⟨200, 30, 1, 1, 90⟩ s 1 ∧
          RVRDriver.calculate_heading_delta ⟨200, 30, 1, 1, 90⟩ s 1 ≤ 90) ∧
    (RVRDriver.calculate_heading_delta ⟨200, 30, 1, 1, 90⟩ 255 1 = 90 ∧
      RVRDriver.calculate_heading_delta ⟨200, 30, 1, 1, 90⟩ (-255) 1 = -90 ∧
      ((0 + (-90 : Int)) % 360 = 270 ∧ 270 ≤ (270:Int) ∧ (270:Int) < 360)) := by
  have hodd : ∀ (cfg : RVRDriver.DriveConfig) (s : Int) (dt : ℚ),
      RVRDriver.calculate_heading_delta cfg (-s) dt =
        -(RVRDriver.calculate_heading_delta cfg s dt) := by
    intro cfg s dt
    by_cases hs : s = 0
    · subst hs
      simp [RVRDriver.calculate_heading_delta]
    · have hs' : ¬(-s = 0) := by omega
      simp only [RVRDriver.calculate_heading_delta, if_neg hs, if_neg hs']
      have harg : ((-s : Int) : ℚ) * cfg.steering_sensitivity / 255 *
            cfg.heading_speed * dt
          = -((s : ℚ) * cfg.steering_sensitivity / 255 *
            cfg.heading_speed * dt) := by
        push_cast
        ring
      rw [harg, pyInt_neg]
  refine ⟨?_, hodd, ?_, ?_, ?_, ?_, ?_⟩
  · intro cfg dt
    simp [RVRDriver.calculate_heading_delta]
  · intro s1 s2 h0 h12
    rw [calculate_heading_delta_default_eq s1 h0,
      calculate_heading_delta_default_eq s2 (le_trans h0 h12)]
    have : s1.toNat ≤ s2.toNat := by omega
    exact_mod_cast Nat.div_le_div_right (Nat.mul_le_mul_left 90 this)
  · intro s h0 h255
    rw [calculate_heading_delta_default_eq s h0]
    constructor
    · exact_mod_cast Nat.zero_le _
    · have : s.toNat ≤ 255 := by omega
      have h90 : 90 * s.toNat / 255 ≤ 90 := by omega
      exact_mod_cast h90
  · rw [calculate_heading_delta_default_eq 255 (by norm_num)]
    norm_num
  · rw [hodd ⟨200, 30, 1, 1, 90⟩ 255 1,
      calculate_heading_delta_default_eq 255 (by norm_num)]
    norm_num
  · decide

/-- Witness for C5 (amended): monotone between steering 100 and 200, and
bounded at steering 128. -/
theorem calculate_heading_delta_policy_witness :
    RVRDriver.calculate_heading_delta ⟨200, 30, 1, 1, 90⟩ 100 1 ≤
      RVRDriver.calculate_heading_delta ⟨200, 30, 1, 1, 90⟩ 200 1 ∧
    (0 ≤ RVRDriver.calculate_heading_delta ⟨200, 30, 1, 1, 90⟩ 128 1 ∧
      RVRDriver.calculate_heading_delta ⟨200, 30, 1, 1, 90⟩ 128 1 ≤ 90) :=
  ⟨calculate_heading_delta_policy.2.2.1 100 200 (by decide) (by decide),
   calculate_heading_delta_policy.2.2.2.1 128 (by decide) (by decide)⟩

/-- C2: with the input timeout enabled, a watchdog tick whose elapsed silence
exceeds the timeout issues exactly one EmergencyStop and resets
`last_input_time` to `now`; a tick within the timeout issues nothing; and
after a reset, a further tick issues exactly one more stop when and only when
another full timeout period has elapsed. -/
theorem watchdogTick_timeout_policy (input_timeout now last t2 : ℚ)
    (henabled : 0 < input_timeout) :
    (input_timeout < now - last →
       RVRController.watchdogTick input_timeout now last =
         ([RVRController.SafetyCmd.emergencyStop], now)) ∧
    (now - last ≤ input_timeout →
       RVRController.watchdogTick input_timeout now last = ([], last)) ∧
    (input_timeout < now - last → input_timeout < t2 - now →
       RVRController.watchdogTick input_timeout t2
           (RVRController.watchdogTick input_timeout now last).2 =
         ([RVRController.SafetyCmd.emergencyStop], t2)) ∧
    (input_timeout < now - last → t2 - now ≤ input_timeout →
       RVRController.watchdogTick input_timeout t2
           (RVRController.watchdogTick input_timeout now last).2 =
         ([], now)) := by
  unfold RVRController.watchdogTick
  refine ⟨?_, ?_, ?_, ?_⟩
  · intro h
    rw [if_pos henabled, if_pos h]
  · intro h
    rw [if_pos henabled, if_neg (not_lt.mpr h)]
  · intro h1 h2
    rw [if_pos henabled, if_pos h1]
    rw [if_pos henabled, if_pos h2]
  · intro h1 h2
    rw [if_pos henabled, if_pos h1]
    rw [if_pos henabled, if_neg (not_lt.mpr h2)]

/-- Witness for C2: timeout 5s, last input at 0.  A tick at 6s fires one stop
and resets to 6; the following tick at 8s stays silent; a tick at 12s (a full
further period of silence) fires exactly one more stop. -/
theorem watchdogTick_timeout_policy_witness :
    RVRController.watchdogTick 5 6 0 =
      ([RVRController.SafetyCmd.emergencyStop], 6) ∧
    RVRController.watchdogTick 5 4 0 = ([], 0) ∧
    RVRController.watchdogTick 5 8 (RVRController.watchdogTick 5 6 0).2 =
      ([], 6) ∧
    RVRController.watchdogTick 5 12 (RVRController.watchdogTick 5 6 0).2 =
      ([RVRController.SafetyCmd.emergencyStop], 12) :=
  ⟨(watchdogTick_timeout_policy 5 6 0 0 (by norm_num)).1 (by norm_num),
   (watchdogTick_timeout_policy 5 4 0 0 (by norm_num)).2.1 (by norm_num),
   (watchdogTick_timeout_policy 5 6 0 8 (by norm_num)).2.2.2
     (by norm_num) (by norm_num),
   (watchdogTick_timeout_policy 5 6 0 12 (by norm_num)).2.2.1
     (by norm_num) (by norm_num)⟩

/-- C8: after three failed connect attempts and one success, the reconnection
loop's trace is attempt/delay three times then the successful fourth attempt:
four attempts in all, each failure followed by the configured delay, and the
loop halts right after the success with no further delay — regardless of any
hypothetical later outcomes. -/
theorem reconnect_rvr_three_failures_then_success (rest : List Bool) :
    RVRController.reconnect_rvr ([false, false, false, true] ++ rest) =
      [RVRController.ReconnectEvent.attempt false,
       RVRController.ReconnectEvent.delay,
       RVRController.ReconnectEvent.attempt false,
       RVRController.ReconnectEvent.delay,
       RVRController.ReconnectEvent.attempt false,
       RVRController.ReconnectEvent.delay,
       RVRController.ReconnectEvent.attempt true] ∧
    (RVRController.reconnect_rvr ([false, false, false, true] ++ rest)).countP
        (fun e => e.isAttempt) = 4 ∧
    (RVRController.reconnect_rvr ([false, false, false, true] ++ rest)).getLast? =
      some (RVRController.ReconnectEvent.attempt true) := by
  refine ⟨rfl, ?_, ?_⟩ <;> rfl

/-- C6 (code evaluated at the failing input): `normalize_trigger` does not
saturate above `max_raw` — raw value 510 with threshold 10 and `max_raw` 255
returns 510, outside the 0..255 range promised by its own docstring. -/
theorem normalize_trigger_no_saturation :
    ControllerInput.normalize_trigger 10 510 255 = 510 ∧
      ¬(ControllerInput.normalize_trigger 10 510 255 ≤ 255) := by
  have h : ControllerInput.normalize_trigger 10 510 255 = 510 := by
    norm_num [ControllerInput.normalize_trigger, pyInt]
  exact ⟨h, by rw [h]; norm_num⟩

/-- C7: a button-press notification fires exactly when the event value is 1
and the stored flag is false — never while held, never on release — and the
value sequence 1,1,1,0,1 on one button fires exactly two notifications. -/
theorem button_press_edge (trigger_threshold : Int) (deadzone : ℚ)
    (st : ControllerInput.State) (v : Int) :
    ((ControllerInput.process_event trigger_threshold deadzone st
        ControllerInput.EventType.ev_key
        ControllerInput.EventCode.button_a v).2.2 =
      if v = 1 ∧ st.button_a = false then some ControllerInput.Button.a
      else none) ∧
    ((ControllerInput.process_event trigger_threshold deadzone st
        ControllerInput.EventType.ev_key
        ControllerInput.EventCode.button_b v).2.2 =
      if v = 1 ∧ st.button_b = false then some ControllerInput.Button.b
      else none) ∧
    ((ControllerInput.process_event trigger_threshold deadzone st
        ControllerInput.EventType.ev_key
        ControllerInput.EventCode.button_x v).2.2 =
      if v = 1 ∧ st.button_x = false then some ControllerInput.Button.x
      else none) ∧
    ((ControllerInput.process_event trigger_threshold deadzone st
        ControllerInput.EventType.ev_key
        ControllerInput.EventCode.button_y v).2.2 =
      if v = 1 ∧ st.button_y = false then some ControllerInput.Button.y
      else none) ∧
    (ControllerInput.run_events trigger_threshold deadzone
        ControllerInput.initState
        [(ControllerInput.EventType.ev_key,
            ControllerInput.EventCode.button_a, 1),
         (ControllerInput.EventType.ev_key,
            ControllerInput.EventCode.button_a, 1),
         (ControllerInput.EventType.ev_key,
            ControllerInput.EventCode.button_a, 1),
         (ControllerInput.EventType.ev_key,
            ControllerInput.EventCode.button_a, 0),
         (ControllerInput.EventType.ev_key,
            ControllerInput.EventCode.button_a, 1)]).2 = 2 := by
  refine ⟨?_, ?_, ?_, ?_, rfl⟩ <;>
    · simp only [ControllerInput.process_event, ControllerInput.buttonStep]
      norm_num
      split_ifs <;> simp_all

/-- C9: a button event whose value is neither 0 nor 1 (such as autorepeat
value 2) leaves the stored controller state entirely unchanged and fires no
button-press and no drive-update notification, for each of the four
buttons. -/
theorem button_other_value_frame (trigger_threshold : Int) (deadzone : ℚ)
    (st : ControllerInput.State) (v : Int) (h0 : v ≠ 0) (h1 : v ≠ 1) :
    ControllerInput.process_event trigger_threshold deadzone st
        ControllerInput.EventType.ev_key
        ControllerInput.EventCode.button_a v = (st, none, none) ∧
    ControllerInput.process_event trigger_threshold deadzone st
        ControllerInput.EventType.ev_key
        ControllerInput.EventCode.button_b v = (st, none, none) ∧
    ControllerInput.process_event trigger_threshold deadzone st
        ControllerInput.EventType.ev_key
        ControllerInput.EventCode.button_x v = (st, none, none) ∧
    ControllerInput.process_event trigger_threshold deadzone st
        ControllerInput.EventType.ev_key
        ControllerInput.EventCode.button_y v = (st, none, none) := by
  refine ⟨?_, ?_, ?_, ?_⟩ <;>
    · simp only [ControllerInput.process_event, ControllerInput.buttonStep]
      simp [h0, h1]

/-- Witness for C9: autorepeat value 2 on button a/b/x/y leaves a concrete
mixed state untouched and fires nothing. -/
theorem button_other_value_frame_witness :
    ControllerInput.process_event 10 (1/20) ⟨5, 6, 7, true, false, true, false⟩
        ControllerInput.EventType.ev_key
        ControllerInput.EventCode.button_a 2 =
      (⟨5, 6, 7, true, false, true, false⟩, none, none) ∧
    ControllerInput.process_event 10 (1/20) ⟨5, 6, 7, true, false, true, false⟩
        ControllerInput.EventType.ev_key
        ControllerInput.EventCode.button_b 2 =
      (⟨5, 6, 7, true, false, true, false⟩, none, none) ∧
    ControllerInput.process_event 10 (1/20) ⟨5, 6, 7, true, false, true, false⟩
        ControllerInput.EventType.ev_key
        ControllerInput.EventCode.button_x 2 =
      (⟨5, 6, 7, true, false, true, false⟩, none, none) ∧
    ControllerInput.process_event 10 (1/20) ⟨5, 6, 7, true, false, true, false⟩
        ControllerInput.EventType.ev_key
        ControllerInput.EventCode.button_y 2 =
      (⟨5, 6, 7, true, false, true, false⟩, none, none) :=
  button_other_value_frame 10 (1/20) ⟨5, 6, 7, true, false, true, false⟩ 2
    (by decide) (by decide)

/-- C10: `set_servo` with a channel outside 0..3 issues no command and leaves
`servo_positions` unchanged; with a channel in 0..3 (connected, servos
enabled) the issued duty array carries the position clamped to 0..255 and
`servo_positions` records the clamped position exactly when the command was
issued — on the `AttributeError` fallback nothing is issued and nothing is
recorded. -/
theorem set_servo_channel_guard (connected servo_enabled avail : Bool)
    (positions : Int → Int) (channel position : Int) :
    (¬(0 ≤ channel ∧ channel < 4) →
       RVRDriver.set_servo connected servo_enabled avail positions
           channel position = (none, positions)) ∧
    (connected = true → servo_enabled = true → 0 ≤ channel → channel < 4 →
       RVRDriver.set_servo connected servo_enabled avail positions
           channel position =
         (if avail then
            (some [if channel = 0 then max 0 (min 255 position) else 0,
                   if channel = 1 then max 0 (min 255 position) else 0,
                   if channel = 2 then max 0 (min 255 position) else 0,
                   if channel = 3 then max 0 (min 255 position) else 0],
             Function.update positions channel (max 0 (min 255 position)))
          else (none, positions))) := by
  constructor
  · intro hch
    unfold RVRDriver.set_servo
    by_cases hce : connected = false ∨ servo_enabled = false
    · rw [if_pos hce]
    · rw [if_neg hce, if_neg hch]
  · intro hc he h0 h4
    subst hc
    subst he
    unfold RVRDriver.set_servo
    rw [if_neg (by simp), if_pos ⟨h0, h4⟩]

/-- Witness for C10: channel 5 is rejected without touching the map; channel 1
with out-of-range position 300 issues duty 255 on channel 1 and records 255. -/
theorem set_servo_channel_guard_witness :
    RVRDriver.set_servo true true true (fun _ => 128) 5 300 =
      (none, fun _ => 128) ∧
    RVRDriver.set_servo true true true (fun _ => 128) 1 300 =
      (some [0, 255, 0, 0], Function.update (fun _ => 128) 1 255) := by
  constructor
  · exact (set_servo_channel_guard true true true (fun _ => 128) 5 300).1
      (by decide)
  · have h := (set_servo_channel_guard true true true (fun _ => 128) 1 300).2
      rfl rfl (by decide) (by decide)
    rw [h]
    norm_num
